import Mathlib

/-! Verification of the Source Acquisition and Content-Addressed Caching
Engine of this repository.

Shallow embedding of `openaddr/cache.py` (the download / cache core of the
repository) and proofs about it.  Python dictionaries coming from JSON are
embedded as structures of `Option`-typed fields, Python floats as rationals,
Python exceptions as an error type threaded through `Except`, and the mutable
`fetched_ids` set as an explicitly threaded list.  External collaborators
(the HTTP network, the GDAL/OGR geometry library, the `mimetypes` table, the
`file` content sniffer, the hash function) are oracle parameters or small
documented models; the control flow around them is translated statement by
statement from the source.  Line numbers in the comments refer to
`src/openaddr/cache.py`.
-/

attribute [local semireducible] Rat.add Rat.mul Rat.inv Rat.sub

deriving instance DecidableEq for Except

namespace OpenAddr

/-- The Python exception classes that `cache.py` can raise or interact with.
`downloadError` is the module's own `DownloadError(Exception)` (line 96);
the others are builtin Python exceptions.  `fuelExhausted` is a model
artifact marking exhaustion of the recursion budget supplied to the model of
the (a priori unbounded) recursive `get_bbox`; theorems always supply enough
budget for it not to occur. -/
inductive PyErr where
  | downloadError (msg : String)
  | keyError (msg : String)
  | typeError (msg : String)
  | valueError (msg : String)
  | runtimeError (msg : String)
  | zeroDivisionError
  | jsonDecodeError
  | exception (msg : String)
  | fuelExhausted
deriving DecidableEq, Repr

/-- Whether an exception is (an instance of) the module's `DownloadError`. -/
def PyErr.isDownloadError : PyErr → Bool
  | .downloadError _ => true
  | _ => false

/-- A WGS84 bounding box, as the `bbox` dicts threaded through `get_bbox`
(lines 402, 494-515). -/
structure BBox where
  xmin : ℚ
  ymin : ℚ
  xmax : ℚ
  ymax : ℚ
deriving DecidableEq, Repr

/-! ## Substring test

Python tests `'...' in str(e)` (line 476); this is plain substring
containment, implemented here from scratch on character lists. -/

/-- Whether the first list is a leading segment of the second. -/
def charsLeadMatch : List Char → List Char → Bool
  | [], _ => true
  | _ :: _, [] => false
  | p :: ps, c :: cs => p = c && charsLeadMatch ps cs

/-- Whether `pat` occurs as a contiguous segment of the second list. -/
def charsHaveSegment (pat : List Char) : List Char → Bool
  | [] => charsLeadMatch pat []
  | c :: cs => charsLeadMatch pat (c :: cs) || charsHaveSegment pat cs

/-- Python `pat in s` on strings: substring containment. -/
def strContainsB (s pat : String) : Bool :=
  charsHaveSegment pat.toList s.toList

/-! ## Geometry

The ESRI JSON geometry encodings accepted by `build_ogr_geometry`
(lines 271-301) and a model of the external GDAL/OGR geometry objects it
builds. -/

/-- The `geometry` member of an ESRI feature, a JSON object that may carry
any of the keys the four branches of `build_ogr_geometry` look up
(`x`/`y`, `points`, `rings`, `paths`); a missing key raises KeyError. -/
structure GeomData where
  x : Option ℚ
  y : Option ℚ
  points : Option (List (ℚ × ℚ))
  rings : Option (List (List (ℚ × ℚ)))
  paths : Option (List (List (ℚ × ℚ)))
deriving DecidableEq, Repr

/-- A `geometry` JSON object carrying none of the recognised keys. -/
def GeomData.empty : GeomData := ⟨none, none, none, none, none⟩

/-- An ESRI point geometry object carrying only `x` and `y`. -/
def GeomData.pt (x y : ℚ) : GeomData := ⟨some x, some y, none, none, none⟩

/-- An ESRI polygon geometry object carrying only `rings`. -/
def GeomData.ofRings (rs : List (List (ℚ × ℚ))) : GeomData :=
  ⟨none, none, none, some rs, none⟩

/-- The OGR geometry value built by `build_ogr_geometry`: wkbPoint,
wkbMultiPoint, wkbPolygon over linear rings, or wkbMultiLineString. -/
inductive OgrGeom where
  | point (x y : ℚ)
  | multiPoint (pts : List (ℚ × ℚ))
  | polygon (rings : List (List (ℚ × ℚ)))
  | multiLineString (lines : List (List (ℚ × ℚ)))
deriving DecidableEq, Repr

/-- `build_ogr_geometry(self, geom_type, esri_feature)`, lines 271-301.
Only the `geometry` member of the feature is consulted, so the model takes
it directly.  A feature without a `geometry` member raises TypeError
(line 273); a geometry type string outside the four supported ones raises
KeyError (line 299); a recognised type whose geometry object lacks the
required key raises KeyError from the dict lookup. -/
def build_ogr_geometry (geom_type : Option String) (geometry : Option GeomData) :
    Except PyErr OgrGeom :=
  match geometry with
  | none => .error (.typeError "No geometry for feature")
  | some g =>
    if geom_type = some "esriGeometryPoint" then
      match g.x, g.y with
      | some gx, some gy => .ok (.point gx gy)
      | _, _ => .error (.keyError "x or y missing from point geometry")
    else if geom_type = some "esriGeometryMultipoint" then
      match g.points with
      | some pts => .ok (.multiPoint pts)
      | none => .error (.keyError "points missing from multipoint geometry")
    else if geom_type = some "esriGeometryPolygon" then
      match g.rings with
      | some rs => .ok (.polygon rs)
      | none => .error (.keyError "rings missing from polygon geometry")
    else if geom_type = some "esriGeometryPolyline" then
      match g.paths with
      | some ps => .ok (.multiLineString ps)
      | none => .error (.keyError "paths missing from polyline geometry")
    else .error (.keyError "Don't know how to convert esri geometry type")

/-- All vertices of an OGR geometry, used by the envelope model. -/
def OgrGeom.vertices : OgrGeom → List (ℚ × ℚ)
  | .point x y => [(x, y)]
  | .multiPoint pts => pts
  | .polygon rings => rings.flatten
  | .multiLineString lines => lines.flatten

/-- Model of OGR `GetEnvelope()` (lines 391, 478, 537): the tuple
(xmin, xmax, ymin, ymax) over all vertices, (0,0,0,0) for an empty
geometry. -/
def getEnvelope (g : OgrGeom) : ℚ × ℚ × ℚ × ℚ :=
  match g.vertices with
  | [] => (0, 0, 0, 0)
  | p :: ps =>
    (ps.foldl (fun m q => min m q.1) p.1, ps.foldl (fun m q => max m q.1) p.1,
     ps.foldl (fun m q => min m q.2) p.2, ps.foldl (fun m q => max m q.2) p.2)

/-- The phrase the source tests for in the RuntimeError raised by a GEOS
centroid computation on a malformed linear ring (lines 476, 535). -/
def invalidRingKey : String := "Invalid number of points in LinearRing found"

/-- Midpoint of the envelope of a geometry. -/
def envelopeMid (g : OgrGeom) : ℚ × ℚ :=
  match getEnvelope g with
  | (exmin, exmax, eymin, eymax) => (exmin / 2 + exmax / 2, eymin / 2 + eymax / 2)

/-- Arithmetic mean of a nonempty list of points, coordinate-wise. -/
def meanOfPoints (pts : List (ℚ × ℚ)) : ℚ × ℚ :=
  ((pts.map Prod.fst).sum / (pts.length : ℚ), (pts.map Prod.snd).sum / (pts.length : ℚ))

/-- Model of the external GDAL/GEOS `Centroid()` call (lines 474, 533).
The behaviour the source branches on is modelled faithfully: GEOS rejects a
polygon containing a linear ring with fewer than 4 but more than 0 points,
surfacing as a RuntimeError whose message contains `invalidRingKey`.  The
numeric centroid of well-formed geometries is an abstraction of the external
library (a point is its own centroid, a multipoint averages its members,
area geometries use the envelope midpoint); no claim depends on these
numbers, only on how the source transforms and routes them. -/
def centroid : OgrGeom → Except String (ℚ × ℚ)
  | .point x y => .ok (x, y)
  | .multiPoint pts =>
    match pts with
    | [] => .ok (0, 0)
    | _ :: _ => .ok (meanOfPoints pts)
  | .polygon rings =>
    if rings.any (fun r => decide (r.length ≠ 0) && decide (r.length < 4)) then
      .error (invalidRingKey ++ " 3 - must be 0 or >= 4")
    else .ok (envelopeMid (.polygon rings))
  | .multiLineString lines => .ok (envelopeMid (.multiLineString lines))

/-- Floor of a rational, computed directly from its reduced fraction. -/
def ratFloor (q : ℚ) : ℤ := Int.fdiv q.num q.den

/-- Round a rational to the nearest integer, ties to even: the rounding of
Python's builtin round().  (Python rounds binary floats; floats are modelled
as exact rationals throughout.) -/
def roundHalfEven (q : ℚ) : ℤ :=
  let f := ratFloor q
  let r := q - (f : ℚ)
  if r < 1 / 2 then f
  else if (1 : ℚ) / 2 < r then f + 1
  else if f % 2 = 0 then f else f + 1

/-- Model of Python round(v, 7), the rounding applied to every derived
coordinate (lines 479-483, 538-542). -/
def pyRound7 (q : ℚ) : ℚ := ((roundHalfEven (q * 10000000) : ℤ) : ℚ) / 10000000

/-! ## Features, query responses and the retry loop -/

/-- The `attributes` member of an ESRI feature.  The source reads a single
key out of it, `row[objectid_fieldname]` (lines 469, 485); `oid` is that
entry, `none` when the key is absent (in which case the lookup raises
KeyError). -/
structure Attrs where
  oid : Option ℤ
deriving DecidableEq, Repr

/-- An ESRI feature from a query response: optional `attributes` and
`geometry` members. -/
structure Feature where
  attributes : Option Attrs
  geometry : Option GeomData
deriving DecidableEq, Repr

/-- The JSON payload of a spatial query response: the three keys the source
reads with .get() (lines 434, 445, 446). -/
structure QueryJson where
  error : Option String
  geometryType : Option String
  features : Option (List Feature)
deriving DecidableEq, Repr

/-- A response body: JSON, or bytes on which response.json() raises. -/
inductive Body where
  | json (j : QueryJson)
  | unparseable
deriving DecidableEq, Repr

/-- An HTTP response to a spatial query. -/
structure HttpResponse where
  status : ℕ
  body : Body
deriving DecidableEq, Repr

/-- Python response.json() (lines 434, 445, 446): raises on an unparseable
body. -/
def jsonOf : Body → Except PyErr QueryJson
  | .json j => .ok j
  | .unparseable => .error .jsonDecodeError

/-- The checks of one iteration of the retry loop body (lines 427-439),
returning the DownloadError the iteration raises, or `none` when the body
reaches `break`: a non-200 status raises at line 428; then the inner
try block parses the body and checks for an `error` member, and ANY
exception out of that block - including the DownloadError raised at
line 436 for an `error` member - is re-raised at line 438 as
DownloadError("Problem parsing ESRI response"). -/
def attemptFailure (r : HttpResponse) : Option PyErr :=
  if r.status ≠ 200 then
    some (.downloadError "Could not retrieve data envelope")
  else
    match r.body with
    | .unparseable => some (.downloadError "Problem parsing ESRI response")
    | .json j =>
      match j.error with
      | some _ => some (.downloadError "Problem parsing ESRI response")
      | none => none

/-- How the while loop of lines 420-443 exited: via `break` (the attempt in
hand succeeded), or because `tries` went negative, in which case the last
DownloadError was caught and swallowed by the handler at lines 441-443 and
`response` still holds the last failed response.  Both constructors record
how many requests were issued. -/
inductive RetryExit where
  | broke (attempts : ℕ) (r : HttpResponse)
  | exhausted (attempts : ℕ) (last : Option HttpResponse)
deriving DecidableEq, Repr

/-- The while loop of lines 419-443.  The source sets `tries = 3` and loops
while `tries >= 0`, decrementing once per iteration right after the request,
so the loop admits exactly tries + 1 = 4 entries; `budget` counts the
remaining admissible entries and starts at 4.  `resp k` is the response the
network returns to request number `k` (zero-based); `made` counts requests
already issued. -/
def retryLoopGo (resp : ℕ → HttpResponse) :
    (budget : ℕ) → (made : ℕ) → (last : Option HttpResponse) → RetryExit
  | 0, made, last => .exhausted made last
  | budget + 1, made, _ =>
    match attemptFailure (resp made) with
    | none => .broke (made + 1) (resp made)
    | some _ => retryLoopGo resp budget (made + 1) (some (resp made))

/-- Entry into the retry loop with tries = 3, i.e. budget 4 (line 419). -/
def retryLoop (resp : ℕ → HttpResponse) : RetryExit :=
  retryLoopGo resp 4 0 none

/-- After the while loop, execution falls through to line 445 with whatever
`response` holds - whether the loop exited via `break` or by exhausting its
tries with the final DownloadError swallowed.  The `none` case (loop body
never entered, `response` unbound) is unreachable from the actual entry
budget of 4. -/
def responseAfterLoop : RetryExit → Except PyErr HttpResponse
  | .broke _ r => .ok r
  | .exhausted _ (some r) => .ok r
  | .exhausted _ none => .error (.exception "NameError: response unbound")

/-! ## The recursive spatial fetch -/

/-- A row of `returned_data` (lines 465-486): the feature's attributes
dictionary, mutated to carry the derived X and Y columns.  `oid` is the
object-id entry the row was registered under; the remaining original
attributes play no further role in the engine and are not modelled.  A row
carries no `geometry` member. -/
structure Row where
  oid : ℤ
  x : ℚ
  y : ℚ
deriving DecidableEq, Repr

/-- The derived X/Y columns for one feature (lines 472-483): build the OGR
geometry, try its centroid, and on a RuntimeError whose message mentions a
malformed linear ring fall back to the envelope midpoint instead of
failing; any other RuntimeError is re-raised.  Coordinates are rounded to 7
decimal places. -/
def featureXY (geometryType : Option String) (feature : Feature) :
    Except PyErr (ℚ × ℚ) :=
  match build_ogr_geometry geometryType feature.geometry with
  | .error e => .error e
  | .ok ogr_geom =>
    match centroid ogr_geom with
    | .ok c => .ok (pyRound7 c.1, pyRound7 c.2)
    | .error msg =>
      if strContainsB msg invalidRingKey then
        match getEnvelope ogr_geom with
        | (exmin, exmax, eymin, eymax) =>
          .ok (pyRound7 (exmin / 2 + exmax / 2), pyRound7 (eymin / 2 + eymax / 2))
      else .error (.runtimeError msg)

/-- The per-feature loop of lines 465-486: for each feature, read its
object-id out of the attributes dictionary (KeyError when absent), skip the
feature if the id is already in `fetched_ids` (line 469), otherwise derive
X/Y, register the id as seen and keep the row.  Returns the retained rows
in order together with the updated id set (the Python set is mutated in
place and shared; here it is threaded explicitly). -/
def processFeatures (geometryType : Option String) :
    List Feature → List ℤ → Except PyErr (List Row × List ℤ)
  | [], fetched_ids => .ok ([], fetched_ids)
  | feature :: rest, fetched_ids =>
    match (feature.attributes.getD (Attrs.mk none)).oid with
    | none => .error (.keyError "objectid field missing from attributes")
    | some oid =>
      if oid ∈ fetched_ids then
        processFeatures geometryType rest fetched_ids
      else
        match featureXY geometryType feature with
        | .error e => .error e
        | .ok (x, y) =>
          match processFeatures geometryType rest (oid :: fetched_ids) with
          | .error e => .error e
          | .ok (rows, idsOut) => .ok (Row.mk oid x y :: rows, idsOut)

/-- The remote layer, as the recursive fetch sees it: `resp b k` is the
response the server returns to request number `k` (zero-based, within one
retry loop) of the spatial query for bounding box `b`. -/
structure EsriServer where
  resp : BBox → ℕ → HttpResponse

/-- The x pivot of the subdivision step, line 490: the mean x of the newly
retained rows (NOT of all returned features, and NOT the box center). -/
def meanX (rows : List Row) : ℚ := (rows.map Row.x).sum / (rows.length : ℚ)

/-- The y pivot of the subdivision step, line 491. -/
def meanY (rows : List Row) : ℚ := (rows.map Row.y).sum / (rows.length : ℚ)

/-- The recursive spatial fetch `get_bbox(fetched_ids, bbox)` of
lines 402-518, returning the retained rows, the updated id set, and the
trace of bounding boxes queried (in query order, this box first).  Steps:
the retry loop issues the query (lines 419-443); execution then continues
with whatever response is in hand, re-reading geometryType and features
from its JSON (lines 445-446; an unparseable body from an exhausted retry
loop raises here, and `len(features)` on a missing `features` member raises
TypeError at line 448/451); the per-feature loop retains fresh rows; and if
the feature count reaches `max_record_count` the box is split into four
quadrants at the mean x/y of the retained rows - a division that raises
ZeroDivisionError when no rows were retained (lines 488-516).  The `fuel`
argument is the model's recursion budget. -/
def get_bbox (S : EsriServer) (max_record_count : ℕ) :
    ℕ → List ℤ → BBox → Except PyErr (List Row × List ℤ × List BBox)
  | 0, _, _ => .error .fuelExhausted
  | fuel + 1, fetched_ids, bbox =>
    match responseAfterLoop (retryLoop (S.resp bbox)) with
    | .error e => .error e
    | .ok r =>
      match jsonOf r.body with
      | .error e => .error e
      | .ok j =>
        match j.features with
        | none => .error (.typeError "object of type NoneType has no len")
        | some features =>
          match processFeatures j.geometryType features fetched_ids with
          | .error e => .error e
          | .ok (returned_data, ids1) =>
            if features.length ≥ max_record_count then
              if returned_data.length = 0 then .error .zeroDivisionError
              else
                let mean_x := meanX returned_data
                let mean_y := meanY returned_data
                match get_bbox S max_record_count fuel ids1
                    (BBox.mk bbox.xmin bbox.ymin mean_x mean_y) with
                | .error e => .error e
                | .ok (r1, ids2, t1) =>
                  match get_bbox S max_record_count fuel ids2
                      (BBox.mk mean_x bbox.ymin bbox.xmax mean_y) with
                  | .error e => .error e
                  | .ok (r2, ids3, t2) =>
                    match get_bbox S max_record_count fuel ids3
                        (BBox.mk bbox.xmin mean_y mean_x bbox.ymax) with
                    | .error e => .error e
                    | .ok (r3, ids4, t3) =>
                      match get_bbox S max_record_count fuel ids4
                          (BBox.mk mean_x mean_y bbox.xmax bbox.ymax) with
                      | .error e => .error e
                      | .ok (r4, ids5, t4) =>
                        .ok (returned_data ++ r1 ++ r2 ++ r3 ++ r4, ids5,
                             bbox :: (t1 ++ t2 ++ t3 ++ t4))
            else .ok (returned_data, ids1, [bbox])

/-! ## The metadata phase of EsriRestDownloadTask.download (lines 330-397) -/

/-- Modelled from the spec: `X_FIELDNAME` is imported from `conform.py`,
which is not among the provided sources; section 6 of the specification says
the reserved derived columns are `X`, `Y` and a WKT geometry column. -/
def X_FIELDNAME : String := "X"

/-- Modelled from the spec: see `X_FIELDNAME`. -/
def Y_FIELDNAME : String := "Y"

/-- Modelled from the spec: see `X_FIELDNAME`; the geometry column's concrete
concrete name plays no role in this module. -/
def GEOM_FIELDNAME : String := "GEOM"

/-- An entry of the `fields` list of the layer metadata: the two keys the
source reads (lines 352, 361-364). -/
structure FieldJson where
  name : String
  type : String
deriving DecidableEq, Repr

/-- The `extent` member of the layer metadata: the four corner keys and the
spatial reference read at lines 379-386. -/
structure ExtentJson where
  xmin : ℚ
  ymin : ℚ
  xmax : ℚ
  ymax : ℚ
  wkid : ℤ
deriving DecidableEq, Repr

/-- The layer-root JSON payload: the five keys the metadata phase reads with
.get() (lines 346-375). -/
structure MetaJson where
  error : Option String
  fields : Option (List FieldJson)
  geometryType : Option String
  maxRecordCount : Option ℕ
  extent : Option ExtentJson
deriving DecidableEq, Repr

/-- What the metadata phase establishes before fetching data. -/
structure LayerMeta where
  field_names : List String
  objectid_fieldname : String
  geometry_type : String
  max_record_count : ℕ
  extent : BBox
deriving DecidableEq, Repr

/-- The extent normalization of lines 376-397: build the rectangular ring of
the declared extent, reproject every vertex to WGS84 (`transform w` maps a
point in the spatial reference `w` to WGS84; the coordinate transformation
itself is the external osr library), and read the new box off the envelope
of the transformed ring. -/
def reprojectExtent (transform : ℤ → ℚ × ℚ → ℚ × ℚ) (e : ExtentJson) : BBox :=
  let ring : List (ℚ × ℚ) :=
    [(e.xmin, e.ymin), (e.xmin, e.ymax), (e.xmax, e.ymax), (e.xmax, e.ymin), (e.xmin, e.ymin)]
  match getEnvelope (.polygon [ring.map (transform e.wkid)]) with
  | (xmin, xmax, ymin, ymax) => BBox.mk xmin ymin xmax ymax

/-- The metadata phase, lines 336-397: fail with DownloadError on a non-200
response (line 338), an `error` member (line 346), an absent or empty
`fields` list (line 349; both are falsy), no field of type
esriFieldTypeOID or an OID field with a falsy name (lines 360-367), or a
falsy `geometryType` (lines 369-371).  `maxRecordCount` defaults to 500
(line 373).  The `extent` member is read with .get() and then immediately
subscripted WITHOUT any check (lines 375-383): when it is absent the
subscription of None raises a plain TypeError, not a DownloadError.
(An unparseable metadata body, line 344, is not modelled; no claim depends
on it.) -/
def processMetadata (transform : ℤ → ℚ × ℚ → ℚ × ℚ) (status : ℕ)
    (metadata : MetaJson) : Except PyErr LayerMeta :=
  if status ≠ 200 then
    .error (.downloadError "Could not retrieve field names from ESRI source")
  else
    match metadata.error with
    | some msg => .error (.downloadError ("Problem querying ESRI field names: " ++ msg))
    | none =>
      match metadata.fields with
      | none => .error (.downloadError "No fields available in the source")
      | some fields =>
        if fields = [] then .error (.downloadError "No fields available in the source")
        else
          let names0 := fields.map FieldJson.name
          let names1 := if X_FIELDNAME ∈ names0 then names0 else names0 ++ [X_FIELDNAME]
          let names2 := if Y_FIELDNAME ∈ names1 then names1 else names1 ++ [Y_FIELDNAME]
          let field_names :=
            if GEOM_FIELDNAME ∈ names2 then names2 else names2 ++ [GEOM_FIELDNAME]
          match fields.find? (fun f => f.type = "esriFieldTypeOID") with
          | none => .error (.downloadError "Could not find objectid field name")
          | some oidField =>
            if oidField.name = "" then
              .error (.downloadError "Could not find objectid field name")
            else
              match metadata.geometryType with
              | none => .error (.downloadError "Could not determine geometry type")
              | some geometry_type =>
                if geometry_type = "" then
                  .error (.downloadError "Could not determine geometry type")
                else
                  let max_record_count := metadata.maxRecordCount.getD 500
                  match metadata.extent with
                  | none => .error (.typeError "NoneType object is not subscriptable")
                  | some e =>
                    .ok (LayerMeta.mk field_names oidField.name geometry_type
                          max_record_count (reprojectExtent transform e))

/-! ## The CSV emit phase (lines 520-549) -/

/-- What happened to one element of fetched_data in the emit loop. -/
inductive EmitStep where
  | wrote
  | skipped
deriving DecidableEq, Repr

/-- The emit loop of lines 527-547: for each element of the fetched data it
calls build_ogr_geometry again (line 529) under a handler that catches ONLY
TypeError (line 546), in which case the row is skipped and logged.  Each
element of fetched_data is a row - the feature's attributes dictionary
appended at line 486 - so it carries no `geometry` member and the build
raises TypeError at line 273; the model therefore passes `none` for the
geometry.  Any non-TypeError exception escapes the loop and aborts the
acquisition.  The WKT/centroid work of the success path (lines 531-545) is
summarised as `wrote`; it is unreachable for a geometry-less row. -/
def emitLoop (geometry_type : String) : List Row → Except PyErr (List EmitStep)
  | [] => .ok []
  | _row :: rest =>
    match build_ogr_geometry (some geometry_type) none with
    | .error (.typeError _) =>
      match emitLoop geometry_type rest with
      | .error e => .error e
      | .ok steps => .ok (.skipped :: steps)
    | .error e => .error e
    | .ok _ =>
      match emitLoop geometry_type rest with
      | .error e => .error e
      | .ok steps => .ok (.wrote :: steps)

/-- One source URL of EsriRestDownloadTask.download (lines 321-551), after
the file-exists short circuit: the metadata phase, the recursive fetch
started on the reprojected extent with a fresh id set (lines 524-525), and
the CSV emit loop run with the metadata geometry type (line 529 reads the
`geometry_type` of line 369, not the per-response one of line 445). -/
def esriDownloadOne (transform : ℤ → ℚ × ℚ → ℚ × ℚ) (metaStatus : ℕ)
    (metadata : MetaJson) (S : EsriServer) (fuel : ℕ) :
    Except PyErr (List EmitStep) :=
  match processMetadata transform metaStatus metadata with
  | .error e => .error e
  | .ok meta =>
    match get_bbox S meta.max_record_count fuel [] meta.extent with
    | .error e => .error e
    | .ok (fetched_data, _, _) => emitLoop meta.geometry_type fetched_data

/-! ## The content-addressed cache: compare_cache_details (lines 67-94) -/

/-- A flat model of the filesystem: named file contents plus a set of
directories. -/
structure FS where
  files : List (String × String)
  dirs : List String
deriving DecidableEq, Repr

/-- os.path.exists: true for a file or a directory of that name. -/
def FS.existsPath (fs : FS) (p : String) : Bool :=
  fs.files.any (fun kv => kv.1 = p) || fs.dirs.contains p

/-- Content of a file, when a file of that name exists. -/
def FS.readFile (fs : FS) (p : String) : Option String :=
  (fs.files.find? (fun kv => kv.1 = p)).map Prod.snd

/-- Create or overwrite a file. -/
def FS.write (fs : FS) (p c : String) : FS :=
  FS.mk ((p, c) :: fs.files.filter (fun kv => kv.1 ≠ p)) fs.dirs

/-- os.mkdir. -/
def FS.mkdirFs (fs : FS) (d : String) : FS := FS.mk fs.files (d :: fs.dirs)

/-- Remove a file. -/
def FS.removeFile (fs : FS) (p : String) : FS :=
  FS.mk (fs.files.filter (fun kv => kv.1 ≠ p)) fs.dirs

/-- shutil.move: the source file ceases to exist and its content appears
under the destination name. -/
def FS.moveFile (fs : FS) (src dst : String) : FS :=
  (fs.removeFile src).write dst ((fs.readFile src).getD "")

/-- The segment of a character list after its last occurrence of `sep`
(the whole list when `sep` does not occur). -/
def lastSegment (sep : Char) (cs : List Char) : List Char :=
  cs.foldl (fun acc c => if c = sep then [] else acc ++ [c]) []

/-- The part of a character list strictly before the first occurrence of
`sep`, or `none` when `sep` does not occur. -/
def beforeChar (sep : Char) : List Char → Option (List Char)
  | [] => none
  | c :: cs =>
    if c = sep then some []
    else
      match beforeChar sep cs with
      | none => none
      | some r => some (c :: r)

/-- os.path.basename: the part after the last slash. -/
def pathBasename (p : String) : String := String.mk (lastSegment '/' p.toList)

/-- os.path.join for the two-argument uses in the source (the second
argument is a plain basename). -/
def pathjoin (a b : String) : String :=
  if a.toList.getLast? = some '/' then a ++ b else a ++ "/" ++ b

/-- Whether a character may appear in a URL scheme (RFC 3986 / urllib). -/
def isSchemeChar (c : Char) : Bool :=
  c.isAlphanum || c = '+' || c = '-' || c = '.'

/-- The scheme component a Python urlparse() call reports for a URL string:
the part before the first colon when it is a well-formed scheme (leading
letter, scheme characters only), lowercased; empty otherwise. -/
def urlscheme (s : String) : String :=
  match beforeChar ':' s.toList with
  | none => ""
  | some [] => ""
  | some (c :: cs) =>
    if c.isAlpha && (c :: cs).all isSchemeChar then
      String.mk ((c :: cs).map Char.toLower)
    else ""

/-- The `data` dict of prior run state consulted by compare_cache_details:
the `cache` and `fingerprint` keys (lines 82-84). -/
structure DeclaredData where
  cache : Option String
  fingerprint : Option String
deriving DecidableEq, Repr

/-- compare_cache_details(filepath, resultdir, data), lines 67-94.
`md5hex` abstracts hashlib.md5 hexdigest over the artifact's bytes (the
source feeds the file line by line into the digest, which reads the same
bytes), and `abspath` abstracts os.path.abspath.  A missing artifact raises
a plain Exception (line 73).  If `data` declares a cache URL with scheme
http and carries a fingerprint equal to the fresh digest, the declared pair
is returned with no filesystem mutation (lines 82-84); otherwise the result
directory is created when absent (lines 88-89), the artifact is MOVED into
it under its own basename (line 91), and a file:// reference into the store
is returned with the fresh digest (lines 92-94). -/
def compare_cache_details (md5hex : String → String) (abspath : String → String)
    (filepath resultdir : String) (data : DeclaredData) (fs : FS) :
    Except PyErr (String × String × FS) :=
  if ¬ fs.existsPath filepath then
    .error (.exception ("cached file " ++ filepath ++ " is missing"))
  else
    let fingerprint := md5hex ((fs.readFile filepath).getD "")
    if urlscheme (data.cache.getD "") = "http" ∧ data.fingerprint.isSome ∧
        data.fingerprint = some fingerprint then
      .ok (data.cache.getD "", fingerprint, fs)
    else
      let cache_name := pathBasename filepath
      let fs1 := if fs.existsPath resultdir then fs else fs.mkdirFs resultdir
      let fs2 := fs1.moveFile filepath (pathjoin resultdir cache_name)
      .ok ("file://" ++ pathjoin (abspath resultdir) cache_name, fingerprint, fs2)

/-! ## The generic download task: the per-URL fetch of URLDownloadTask.download
(lines 244-263) -/

/-- A streamed response to a flat-file GET: status code and content chunks. -/
structure FlatResponse where
  status : ℕ
  chunks : List String
deriving DecidableEq, Repr

/-- The network outcome of requests.get at line 248: a response, or a raised
connection-level exception (whose message is the payload of `.error`). -/
def NetResult : Type := Except String FlatResponse

/-- Lines 247-263 of URLDownloadTask.download, the per-URL fetch after the
file-exists short circuit: a connection-level exception is wrapped in
DownloadError("Could not connect to URL") (lines 249-250); a status code in
range(400, 499) - that is 400 <= status <= 498 - raises DownloadError with
the status and URL (lines 252-253); ANY other response has its body
streamed into the destination file (lines 255-259), whatever its status. -/
def urlFetchStep (net : NetResult) (source_url file_path : String) (fs : FS) :
    Except PyErr FS :=
  match net with
  | .error _cause => .error (.downloadError "Could not connect to URL")
  | .ok resp =>
    if 400 ≤ resp.status ∧ resp.status < 499 then
      .error (.downloadError (toString resp.status ++ " response from " ++ source_url))
    else
      .ok (fs.write file_path (String.join resp.chunks))

/-! ## The extension resolver: guess_url_file_extension (lines 119-185) -/

/-- A parsed URL, as the 6-tuple Python urlparse returns (lines 122, 208,
235): scheme, netloc, path, params, query, fragment. -/
structure Url where
  scheme : String
  netloc : String
  path : String
  params : String
  query : String
  fragment : String
deriving DecidableEq, Repr

/-- The two response headers the resolver reads (lines 154, 165). -/
structure RespHeaders where
  contentType : Option String
  contentDisposition : Option String
deriving DecidableEq, Repr

/-- The external world of the resolver: the streamed HTTP fetch of
lines 140-143 (headers plus the first 99 bytes of content), the local file
read of lines 146-147, the stdlib mimetypes.guess_extension table
(lines 157, 183; None when the MIME type is unknown), the anchored
regular-expression match on a Content-Disposition header value (line 167;
the matched filename, or None), and the `file --mime-type` content sniffer
wrapped by get_content_mimetype (lines 181, 187-197). -/
structure UrlWorld where
  httpGet : Url → RespHeaders × String
  fileRead : String → String
  guessExtension : String → Option String
  dispositionFilename : String → Option String
  sniffMime : String → String

/-- os.path.splitext, restricted to the extension component it returns: the
suffix starting at the last dot of the final path component, unless every
character before that dot in the component is itself a dot (so ".bashrc"
has no extension). -/
def splitextExt (p : String) : String :=
  let cs := lastSegment '/' p.toList
  let idxs := (List.range cs.length).filter (fun i =>
    cs.getD i ' ' = '.' && (List.range i).any (fun j => cs.getD j ' ' ≠ '.'))
  match idxs.getLast? with
  | some i => String.mk (cs.drop i)
  | none => ""

/-- The meaningless path extensions of line 126. -/
def bad_extensions : List String := ["", ".cgi", ".php", ".aspx", ".asp", ".do"]

/-- guess_url_file_extension(url), lines 119-185.  Branch one (lines
128-133): a URL with no query string and a path extension outside the
meaningless set is trusted verbatim, with no network access and no scheme
inspection.  Otherwise the resolver fetches headers and a 99-byte sample -
only for http(s), file or empty schemes; any other scheme raises ValueError
(line 149).  A Content-Type header yields a candidate extension through the
mimetypes table; a Content-Disposition filename that disagrees with that
candidate discards it (lines 165-174; Python compares a possibly-None
candidate against the attachment extension, which then simply disagrees).
If no extension was established, the sample is content-sniffed and mapped
through the same table (lines 176-183).  The result is an extension string
or None (Python False/None are conflated here as `none`: both are falsy and
the function returns whichever it holds). -/
def guess_url_file_extension (W : UrlWorld) (url : Url) :
    Except PyErr (Option String) :=
  let likely_ext := splitextExt url.path
  if url.query = "" ∧ likely_ext ∉ bad_extensions then
    .ok (some likely_ext)
  else
    match (if url.scheme = "http" ∨ url.scheme = "https" then
             .ok (W.httpGet url)
           else if url.scheme = "file" ∨ url.scheme = "" then
             .ok (RespHeaders.mk none none, W.fileRead url.path)
           else
             .error (.valueError ("Unknown scheme " ++ url.scheme)) :
           Except PyErr (RespHeaders × String)) with
    | .error e => .error e
    | .ok (headers, content_chunk) =>
      let path_ext : Option String :=
        match headers.contentType with
        | none => none
        | some ct =>
          let content_type := ((beforeChar ';' ct.toList).map String.mk).getD ct
          let fromCt := W.guessExtension content_type
          match headers.contentDisposition with
          | none => fromCt
          | some cd =>
            match W.dispositionFilename cd with
            | none => fromCt
            | some fn =>
              if fromCt = some (splitextExt fn) then fromCt else none
      match path_ext with
      | some e => .ok (some e)
      | none => .ok (W.guessExtension (W.sniffMime content_chunk))

/-! ## Concrete scenario inputs used to evaluate the model -/

/-- A feature with an object-id and a point geometry. -/
def ptFeature (oid : ℤ) (x y : ℚ) : Feature :=
  Feature.mk (some (Attrs.mk (some oid))) (some (GeomData.pt x y))

/-- A 200 response whose JSON carries point features and no error member. -/
def okPointResponse (fs : List Feature) : HttpResponse :=
  HttpResponse.mk 200 (Body.json (QueryJson.mk none (some "esriGeometryPoint") (some fs)))

/-- Full extent of the two-level scenario. -/
def scB0 : BBox := BBox.mk 0 0 4 4

/-- Lower-left quadrant of the scenario extent split at (2, 2). -/
def scQ1 : BBox := BBox.mk 0 0 2 2

/-- Lower-right quadrant. -/
def scQ2 : BBox := BBox.mk 2 0 4 2

/-- Upper-left quadrant. -/
def scQ3 : BBox := BBox.mk 0 2 2 4

/-- Upper-right quadrant. -/
def scQ4 : BBox := BBox.mk 2 2 4 4

/-- The features the scenario server returns for the full extent. -/
def scRootFeatures : List Feature := [ptFeature 1 1 1, ptFeature 2 3 3]

/-- A two-level scenario server with maxRecordCount 2 in mind: the full
extent returns exactly two point features (reaching the cap), and the four
quadrant queries return one, one, zero and one features, re-observing the
two root features near the shared tile boundary. -/
def scServer : EsriServer :=
  EsriServer.mk (fun b _ =>
    if b = scB0 then okPointResponse scRootFeatures
    else if b = scQ1 then okPointResponse [ptFeature 1 1 1]
    else if b = scQ2 then okPointResponse [ptFeature 3 3 1]
    else if b = scQ4 then okPointResponse [ptFeature 2 3 3]
    else okPointResponse [])

/-- A unit box for single-tile scenarios. -/
def unitBox : BBox := BBox.mk 0 0 1 1

/-- A query JSON with none of the keys the source reads. -/
def emptyQueryJson : QueryJson := QueryJson.mk none none none

/-- A server that answers every request of every attempt with HTTP 500 and a
parseable JSON body carrying no recognised keys. -/
def c1Server : EsriServer :=
  EsriServer.mk (fun _ _ => HttpResponse.mk 500 (Body.json emptyQueryJson))

/-- A server that returns at least the record cap worth of features whose
object-id (5) can already be in the caller's seen set. -/
def c10Server : EsriServer :=
  EsriServer.mk (fun _ _ => okPointResponse [ptFeature 5 1 1])

/-- The identity coordinate transformation, for metadata already in WGS84. -/
def idTransform : ℤ → ℚ × ℚ → ℚ × ℚ := fun _ p => p

/-- Layer metadata whose declared geometry type is esriGeometryEnvelope,
outside the four types build_ogr_geometry supports. -/
def c6Meta : MetaJson :=
  MetaJson.mk none (some [FieldJson.mk "OBJECTID" "esriFieldTypeOID"])
    (some "esriGeometryEnvelope") (some 500) (some (ExtentJson.mk 0 0 4 4 4326))

/-- A server whose query responses also declare esriGeometryEnvelope and
return one fresh feature bearing a geometry object. -/
def c6Server : EsriServer :=
  EsriServer.mk (fun _ _ => HttpResponse.mk 200 (Body.json
    (QueryJson.mk none (some "esriGeometryEnvelope")
      (some [Feature.mk (some (Attrs.mk (some 1))) (some GeomData.empty)]))))

/-- Layer metadata that passes every DownloadError check of the metadata
phase but carries no extent member. -/
def c7Meta : MetaJson :=
  MetaJson.mk none (some [FieldJson.mk "OBJECTID" "esriFieldTypeOID"])
    (some "esriGeometryPoint") none none

/-- A feature whose polygon geometry consists of one degenerate three-point
linear ring. -/
def degFeature : Feature :=
  Feature.mk (some (Attrs.mk (some 7))) (some (GeomData.ofRings [[(0, 0), (4, 0), (0, 4)]]))

/-- A URL with the unsupported scheme ftp, an empty query string and a
meaningful path extension. -/
def ftpUrl : Url := Url.mk "ftp" "example.com" "/data.zip" "" "" ""

/-- A resolver world whose oracles all return trivial values; branch one of
the resolver never consults it. -/
def trivialWorld : UrlWorld :=
  UrlWorld.mk (fun _ => (RespHeaders.mk none none, "")) (fun _ => "")
    (fun _ => none) (fun _ => none) (fun _ => "")

/-- The artifact file of the cache scenario. -/
def c4Fs : FS := FS.mk [("/tmp/work/data.zip", "BYTES")] []

/-- A transparent stand-in for the md5 hexdigest oracle. -/
def c4md5 : String → String := fun s => "md5-" ++ s

/-- A stand-in for os.path.abspath. -/
def c4abs : String → String := fun s => "/abs/" ++ s

/-! # Helper lemmas -/

/-- When the first attempt of the retry loop succeeds, the loop breaks after
exactly one request with that response in hand. -/
theorem retryLoop_first_success (resp : ℕ → HttpResponse)
    (h : attemptFailure (resp 0) = none) :
    retryLoop resp = RetryExit.broke 1 (resp 0) := by
  simp [retryLoop, retryLoopGo, h]

/-! # C1 -/

/-- C1: the claim says the per-tile spatial query makes up to 3 attempts and
that the final failure propagates to the caller as a DownloadError, never
silently swallowed.  The code (cache.py lines 419-443) is a slip against
that intent: it sets tries = 3 but loops while tries >= 0, so it issues
FOUR requests, and the except handler that implements the retry also
catches the FINAL DownloadError, after which execution falls through to
line 445 with the failed response still in hand.  Evaluated on a server
that answers every attempt with HTTP 500 and a parseable empty JSON body:
the loop exhausts after 4 attempts with the failure swallowed, and the
acquisition then dies at len(features) with a TypeError, which is not a
DownloadError. -/
theorem C1_retry_four_attempts_and_swallowed_final_failure :
    retryLoop (c1Server.resp unitBox) =
      RetryExit.exhausted 4 (some (HttpResponse.mk 500 (Body.json emptyQueryJson))) ∧
    get_bbox c1Server 500 1 [] unitBox =
      .error (.typeError "object of type NoneType has no len") ∧
    (PyErr.typeError "object of type NoneType has no len").isDownloadError = false := by
  exact ⟨by decide, by decide, rfl⟩

/-! # C2 -/

/-- C2: in the recursive fetch, a tile whose query returned fewer features
than the record cap is complete (its trace is just the one query and its
result is just its own retained rows), and a tile whose query returned at
least the cap issues exactly the four child queries over the quadrants
obtained by splitting the box at the pivot (mean x, mean y) of the rows
just retrieved, merging the four child results after this tile's own rows
(cache.py lines 488-518). -/
theorem C2_subdivides_iff_at_cap
    (S : EsriServer) (m fuel : ℕ) (ids : List ℤ) (bbox : BBox)
    (j : QueryJson) (features : List Feature) (rows0 : List Row) (ids1 : List ℤ)
    (hq : S.resp bbox 0 = HttpResponse.mk 200 (Body.json j))
    (herr : j.error = none)
    (hfeat : j.features = some features)
    (hproc : processFeatures j.geometryType features ids = .ok (rows0, ids1)) :
    (features.length < m →
      get_bbox S m (fuel + 1) ids bbox = .ok (rows0, ids1, [bbox])) ∧
    (m ≤ features.length → rows0 ≠ [] →
      ∀ r1 ids2 t1 r2 ids3 t2 r3 ids4 t3 r4 ids5 t4,
      get_bbox S m fuel ids1 (BBox.mk bbox.xmin bbox.ymin (meanX rows0) (meanY rows0)) =
        .ok (r1, ids2, t1) →
      get_bbox S m fuel ids2 (BBox.mk (meanX rows0) bbox.ymin bbox.xmax (meanY rows0)) =
        .ok (r2, ids3, t2) →
      get_bbox S m fuel ids3 (BBox.mk bbox.xmin (meanY rows0) (meanX rows0) bbox.ymax) =
        .ok (r3, ids4, t3) →
      get_bbox S m fuel ids4 (BBox.mk (meanX rows0) (meanY rows0) bbox.xmax bbox.ymax) =
        .ok (r4, ids5, t4) →
      get_bbox S m (fuel + 1) ids bbox =
        .ok (rows0 ++ r1 ++ r2 ++ r3 ++ r4, ids5, bbox :: (t1 ++ t2 ++ t3 ++ t4))) := by
  have hr : retryLoop (S.resp bbox) = RetryExit.broke 1 (S.resp bbox 0) := by
    apply retryLoop_first_success
    rw [hq]
    simp [attemptFailure, herr]
  constructor
  · intro hlt
    simp only [get_bbox, hr, responseAfterLoop, hq, jsonOf, hfeat, hproc]
    rw [if_neg (by omega)]
  · intro hge hne r1 ids2 t1 r2 ids3 t2 r3 ids4 t3 r4 ids5 t4 hc1 hc2 hc3 hc4
    simp only [get_bbox, hr, responseAfterLoop, hq, jsonOf, hfeat, hproc]
    rw [if_pos (by omega), if_neg (by simpa [List.length_eq_zero] using hne)]
    simp only [hc1, hc2, hc3, hc4]

/-- Witness for C2: the two-level scenario with record cap 2.  The root
query over the full extent returns exactly 2 features, whose retained rows
have mean (2, 2); exactly the four quadrant queries split at (2, 2) are
issued, and the overall result merges the root rows with the quadrant
results while the trace is exactly the root box followed by the four
quadrants. -/
theorem C2_subdivides_iff_at_cap_witness :
    scServer.resp scB0 0 = HttpResponse.mk 200 (Body.json
      (QueryJson.mk none (some "esriGeometryPoint") (some scRootFeatures))) ∧
    processFeatures (some "esriGeometryPoint") scRootFeatures [] =
      .ok ([Row.mk 1 1 1, Row.mk 2 3 3], [2, 1]) ∧
    get_bbox scServer 2 2 [] scB0 =
      .ok ([Row.mk 1 1 1, Row.mk 2 3 3, Row.mk 3 3 1], [3, 2, 1],
           [scB0, scQ1, scQ2, scQ3, scQ4]) := by
  refine ⟨by decide, by decide, ?_⟩
  have h := (C2_subdivides_iff_at_cap scServer 2 1 [] scB0
      (QueryJson.mk none (some "esriGeometryPoint") (some scRootFeatures)) scRootFeatures
      [Row.mk 1 1 1, Row.mk 2 3 3] [2, 1]
      (by decide) (by decide) (by decide) (by decide)).2
      (by decide) (by decide)
      [] [2, 1] [scQ1] [Row.mk 3 3 1] [3, 2, 1] [scQ2] [] [3, 2, 1] [scQ3] [] [3, 2, 1] [scQ4]
      (by decide) (by decide) (by decide) (by decide)
  simpa using h

/-! # C3 -/

/-- The deduplication invariant threaded by the recursive fetch: the
retained rows carry pairwise distinct object-ids, none of which was in the
incoming seen set, and the outgoing seen set is exactly the incoming one
extended by the retained ids. -/
def FetchInv (ids : List ℤ) (rows : List Row) (idsOut : List ℤ) : Prop :=
  (rows.map Row.oid).Nodup ∧ (∀ r ∈ rows, r.oid ∉ ids) ∧
  (∀ z : ℤ, z ∈ idsOut ↔ z ∈ ids ∨ z ∈ rows.map Row.oid)

/-- The invariant holds trivially when nothing is retained. -/
theorem fetchInv_refl (ids : List ℤ) : FetchInv ids [] ids :=
  ⟨List.nodup_nil, by simp, by simp⟩

/-- Retaining one fresh row preserves the invariant: the id is registered
before the tail is processed, so the tail cannot retain it again. -/
theorem fetchInv_cons {ids idsOut : List ℤ} {oid : ℤ} {x y : ℚ} {rows : List Row}
    (hfresh : oid ∉ ids) (htail : FetchInv (oid :: ids) rows idsOut) :
    FetchInv ids (Row.mk oid x y :: rows) idsOut := by
  obtain ⟨hnd, hnin, hiff⟩ := htail
  refine ⟨?_, ?_, ?_⟩
  · simp only [List.map_cons, List.nodup_cons]
    refine ⟨?_, hnd⟩
    intro hmem
    obtain ⟨r, hr, hoid⟩ := List.mem_map.mp hmem
    exact hnin r hr (by rw [hoid]; exact List.mem_cons_self _ _)
  · intro r hr
    rcases List.mem_cons.mp hr with h | h
    · rw [h]; exact hfresh
    · intro hin
      exact hnin r h (List.mem_cons_of_mem _ hin)
  · intro z
    rw [hiff z]
    simp only [List.mem_cons, List.map_cons]
    tauto

/-- Sequencing two invariant-preserving phases preserves the invariant;
this is how the four quadrant fetches compose with the parent tile. -/
theorem fetchInv_append {ids mid idsOut : List ℤ} {rows1 rows2 : List Row}
    (h1 : FetchInv ids rows1 mid) (h2 : FetchInv mid rows2 idsOut) :
    FetchInv ids (rows1 ++ rows2) idsOut := by
  obtain ⟨nd1, ni1, if1⟩ := h1
  obtain ⟨nd2, ni2, if2⟩ := h2
  refine ⟨?_, ?_, ?_⟩
  · rw [List.map_append, List.nodup_append]
    refine ⟨nd1, nd2, ?_⟩
    intro a ha hb
    obtain ⟨r2, hr2, h2eq⟩ := List.mem_map.mp hb
    exact ni2 r2 hr2 (by rw [h2eq]; exact (if1 a).mpr (Or.inr ha))
  · intro r hr
    rcases List.mem_append.mp hr with h | h
    · exact ni1 r h
    · intro hin
      exact ni2 r h ((if1 r.oid).mpr (Or.inl hin))
  · intro z
    rw [if2 z, if1 z]
    simp only [List.map_append, List.mem_append]
    tauto

/-- The per-feature loop establishes the invariant: the membership check of
line 469 precedes the registration of line 485, and a row is appended only
after its id is registered. -/
theorem processFeatures_fetchInv (gt : Option String) (features : List Feature) :
    ∀ (ids : List ℤ) (rows : List Row) (idsOut : List ℤ),
    processFeatures gt features ids = .ok (rows, idsOut) →
    FetchInv ids rows idsOut := by
  induction features with
  | nil =>
    intro ids rows idsOut h
    simp only [processFeatures, Except.ok.injEq, Prod.mk.injEq] at h
    rw [← h.1, ← h.2]
    exact fetchInv_refl ids
  | cons f rest ih =>
    intro ids rows idsOut h
    simp only [processFeatures] at h
    cases hoid : (f.attributes.getD (Attrs.mk none)).oid with
    | none => simp only [hoid] at h; cases h
    | some oid =>
      simp only [hoid] at h
      by_cases hmem : oid ∈ ids
      · rw [if_pos hmem] at h
        exact ih ids rows idsOut h
      · rw [if_neg hmem] at h
        cases hxy : featureXY gt f with
        | error e => simp only [hxy] at h; cases h
        | ok xy =>
          simp only [hxy] at h
          obtain ⟨x, y⟩ := xy
          cases hrec : processFeatures gt rest (oid :: ids) with
          | error e => simp only [hrec] at h; cases h
          | ok pr =>
            obtain ⟨rows2, idsOut2⟩ := pr
            simp only [hrec, Except.ok.injEq, Prod.mk.injEq] at h
            rw [← h.1, ← h.2]
            exact fetchInv_cons hmem (ih (oid :: ids) rows2 idsOut2 hrec)

/-- The recursive fetch maintains the deduplication invariant across the
whole traversal: the shared seen set is threaded through the parent tile and
its four quadrants in order. -/
theorem get_bbox_fetchInv (S : EsriServer) (m : ℕ) (fuel : ℕ) :
    ∀ (ids : List ℤ) (bbox : BBox) (rows : List Row) (idsOut : List ℤ) (trace : List BBox),
    get_bbox S m fuel ids bbox = .ok (rows, idsOut, trace) →
    FetchInv ids rows idsOut := by
  induction fuel with
  | zero =>
    intro ids bbox rows idsOut trace h
    simp only [get_bbox] at h
    cases h
  | succ fuel ih =>
    intro ids bbox rows idsOut trace h
    simp only [get_bbox] at h
    cases hrl : responseAfterLoop (retryLoop (S.resp bbox)) with
    | error e => simp only [hrl] at h; cases h
    | ok r =>
      simp only [hrl] at h
      cases hj : jsonOf r.body with
      | error e => simp only [hj] at h; cases h
      | ok j =>
        simp only [hj] at h
        cases hf : j.features with
        | none => simp only [hf] at h; cases h
        | some features =>
          simp only [hf] at h
          cases hp : processFeatures j.geometryType features ids with
          | error e => simp only [hp] at h; cases h
          | ok pr =>
            obtain ⟨rows0, ids1⟩ := pr
            simp only [hp] at h
            have hinv0 := processFeatures_fetchInv j.geometryType features ids rows0 ids1 hp
            by_cases hcap : features.length ≥ m
            · rw [if_pos hcap] at h
              by_cases hz : rows0.length = 0
              · rw [if_pos hz] at h
                cases h
              · rw [if_neg hz] at h
                cases h1 : get_bbox S m fuel ids1
                    (BBox.mk bbox.xmin bbox.ymin (meanX rows0) (meanY rows0)) with
                | error e => simp only [h1] at h; cases h
                | ok res1 =>
                  obtain ⟨r1, ids2, t1⟩ := res1
                  simp only [h1] at h
                  cases h2 : get_bbox S m fuel ids2
                      (BBox.mk (meanX rows0) bbox.ymin bbox.xmax (meanY rows0)) with
                  | error e => simp only [h2] at h; cases h
                  | ok res2 =>
                    obtain ⟨r2, ids3, t2⟩ := res2
                    simp only [h2] at h
                    cases h3 : get_bbox S m fuel ids3
                        (BBox.mk bbox.xmin (meanY rows0) (meanX rows0) bbox.ymax) with
                    | error e => simp only [h3] at h; cases h
                    | ok res3 =>
                      obtain ⟨r3, ids4, t3⟩ := res3
                      simp only [h3] at h
                      cases h4 : get_bbox S m fuel ids4
                          (BBox.mk (meanX rows0) (meanY rows0) bbox.xmax bbox.ymax) with
                      | error e => simp only [h4] at h; cases h
                      | ok res4 =>
                        obtain ⟨r4, ids5, t4⟩ := res4
                        simp only [h4, Except.ok.injEq, Prod.mk.injEq] at h
                        rw [← h.1, ← h.2.1]
                        exact fetchInv_append (fetchInv_append (fetchInv_append
                          (fetchInv_append hinv0 (ih ids1 _ r1 ids2 t1 h1))
                          (ih ids2 _ r2 ids3 t2 h2)) (ih ids3 _ r3 ids4 t3 h3))
                          (ih ids4 _ r4 ids5 t4 h4)
            · rw [if_neg hcap] at h
              simp only [Except.ok.injEq, Prod.mk.injEq] at h
              rw [← h.1, ← h.2.1]
              exact hinv0

/-- C3: across one whole ESRI acquisition, every successful recursive fetch
retains each distinct object-id at most once (the retained rows carry
pairwise distinct ids), never retains an id that was already in the shared
seen set at entry, and registers every retained id in the final seen set -
regardless of how many overlapping tiles re-observe a feature and of
recursion order (cache.py lines 465-486, 524-525). -/
theorem C3_each_objectid_retained_at_most_once
    (S : EsriServer) (m fuel : ℕ) (ids : List ℤ) (bbox : BBox)
    (rows : List Row) (idsOut : List ℤ) (trace : List BBox)
    (h : get_bbox S m fuel ids bbox = .ok (rows, idsOut, trace)) :
    (rows.map Row.oid).Nodup ∧ (∀ r ∈ rows, r.oid ∉ ids) ∧
    (∀ r ∈ rows, r.oid ∈ idsOut) := by
  obtain ⟨hnd, hni, hiff⟩ := get_bbox_fetchInv S m fuel ids bbox rows idsOut trace h
  exact ⟨hnd, hni, fun r hr => (hiff r.oid).mpr (Or.inr (List.mem_map_of_mem _ hr))⟩

/-- Witness for C3: in the two-level scenario the quadrant queries
re-observe the features with object-ids 1 and 2 near the shared boundary,
yet the merged result retains ids 1, 2, 3 exactly once each and registers
all of them. -/
theorem C3_each_objectid_retained_at_most_once_witness :
    get_bbox scServer 2 2 [] scB0 =
      .ok ([Row.mk 1 1 1, Row.mk 2 3 3, Row.mk 3 3 1], [3, 2, 1],
           [scB0, scQ1, scQ2, scQ3, scQ4]) ∧
    (([Row.mk 1 1 1, Row.mk 2 3 3, Row.mk 3 3 1].map Row.oid).Nodup ∧
     (∀ r ∈ [Row.mk 1 1 1, Row.mk 2 3 3, Row.mk 3 3 1], r.oid ∉ ([] : List ℤ)) ∧
     (∀ r ∈ [Row.mk 1 1 1, Row.mk 2 3 3, Row.mk 3 3 1], r.oid ∈ ([3, 2, 1] : List ℤ))) :=
  ⟨by decide, C3_each_objectid_retained_at_most_once scServer 2 2 [] scB0
    [Row.mk 1 1 1, Row.mk 2 3 3, Row.mk 3 3 1] [3, 2, 1]
    [scB0, scQ1, scQ2, scQ3, scQ4] (by decide)⟩

/-! # C10 -/

/-- A query whose features all carry object-ids already in the shared seen
set retains nothing and leaves the seen set unchanged (lines 466-470). -/
theorem processFeatures_all_seen (gt : Option String) (features : List Feature) :
    ∀ ids : List ℤ,
    (∀ f ∈ features, ∃ o : ℤ, (f.attributes.getD (Attrs.mk none)).oid = some o ∧ o ∈ ids) →
    processFeatures gt features ids = .ok ([], ids) := by
  induction features with
  | nil => intro ids _; rfl
  | cons f rest ih =>
    intro ids hall
    obtain ⟨o, ho, hoin⟩ := hall f (List.mem_cons_self f rest)
    simp only [processFeatures, ho, if_pos hoin]
    exact ih ids (fun g hg => hall g (List.mem_cons_of_mem f hg))

/-- C10: the subdivision pivot (lines 490-491) divides by the number of
NEWLY RETAINED rows - not by the number of features the query returned - so
a tile whose query returns at least maxRecordCount features, all of whose
object-ids are already in the shared seen set, performs a division by zero:
the recursive fetch aborts with ZeroDivisionError, which is not a
DownloadError. -/
theorem C10_pivot_divides_by_retained_rows_divzero
    (S : EsriServer) (m fuel : ℕ) (ids : List ℤ) (bbox : BBox)
    (j : QueryJson) (features : List Feature)
    (hq : S.resp bbox 0 = HttpResponse.mk 200 (Body.json j))
    (herr : j.error = none)
    (hfeat : j.features = some features)
    (hall : ∀ f ∈ features, ∃ o : ℤ, (f.attributes.getD (Attrs.mk none)).oid = some o ∧ o ∈ ids)
    (hcap : m ≤ features.length) :
    get_bbox S m (fuel + 1) ids bbox = .error .zeroDivisionError ∧
    PyErr.zeroDivisionError.isDownloadError = false := by
  have hr : retryLoop (S.resp bbox) = RetryExit.broke 1 (S.resp bbox 0) := by
    apply retryLoop_first_success
    rw [hq]
    simp [attemptFailure, herr]
  have hp := processFeatures_all_seen j.geometryType features ids hall
  refine ⟨?_, rfl⟩
  simp only [get_bbox, hr, responseAfterLoop, hq, jsonOf, hfeat, hp]
  rw [if_pos hcap]
  rfl

/-- Witness for C10: a server returning one feature (meeting a record cap
of 1) whose object-id 5 is already in the seen set: the fetch aborts with
ZeroDivisionError. -/
theorem C10_pivot_divides_by_retained_rows_divzero_witness :
    (∀ f ∈ [ptFeature 5 1 1],
      ∃ o : ℤ, (f.attributes.getD (Attrs.mk none)).oid = some o ∧ o ∈ ([5] : List ℤ)) ∧
    1 ≤ ([ptFeature 5 1 1] : List Feature).length ∧
    get_bbox c10Server 1 1 [5] unitBox = .error .zeroDivisionError ∧
    PyErr.zeroDivisionError.isDownloadError = false := by
  refine ⟨?_, by decide, ?_⟩
  · intro f hf
    rw [List.mem_singleton] at hf
    rw [hf]
    exact ⟨5, rfl, by decide⟩
  · exact C10_pivot_divides_by_retained_rows_divzero c10Server 1 0 [5] unitBox
      (QueryJson.mk none (some "esriGeometryPoint") (some [ptFeature 5 1 1]))
      [ptFeature 5 1 1] (by decide) rfl rfl
      (fun f hf => by
        rw [List.mem_singleton] at hf
        rw [hf]
        exact ⟨5, rfl, by decide⟩)
      (by decide)

/-! # C8 -/

/-- C8: a feature whose geometry builds but whose centroid computation
raises the malformed-linear-ring RuntimeError is NOT dropped: the row is
retained with its X/Y columns set to the rounded midpoint of the geometry's
own envelope, the object-id is registered, and no error propagates
(cache.py lines 473-483). -/
theorem C8_degenerate_ring_falls_back_to_envelope_midpoint
    (gt : Option String) (feature : Feature) (rest : List Feature) (ids : List ℤ)
    (oid : ℤ) (g : OgrGeom) (msg : String) (rows : List Row) (idsOut : List ℤ)
    (exmin exmax eymin eymax : ℚ)
    (hattr : feature.attributes = some (Attrs.mk (some oid)))
    (hfresh : oid ∉ ids)
    (hbuild : build_ogr_geometry gt feature.geometry = .ok g)
    (hcent : centroid g = .error msg)
    (hmsg : strContainsB msg invalidRingKey = true)
    (henv : getEnvelope g = (exmin, exmax, eymin, eymax))
    (htail : processFeatures gt rest (oid :: ids) = .ok (rows, idsOut)) :
    processFeatures gt (feature :: rest) ids =
      .ok (Row.mk oid (pyRound7 (exmin / 2 + exmax / 2))
            (pyRound7 (eymin / 2 + eymax / 2)) :: rows, idsOut) := by
  have hxy : featureXY gt feature =
      .ok (pyRound7 (exmin / 2 + exmax / 2), pyRound7 (eymin / 2 + eymax / 2)) := by
    simp only [featureXY, hbuild, hcent, hmsg, henv, if_pos]
  simp only [processFeatures, hattr, Option.getD_some, if_neg hfresh, hxy, htail]

/-- Witness for C8: a polygon feature whose single ring has only three
points; the centroid model raises the linear-ring RuntimeError, yet the row
is retained with coordinates equal to the rounded midpoint (2, 2) of the
geometry's own envelope (0, 4) x (0, 4), and its id 7 is registered. -/
theorem C8_degenerate_ring_falls_back_to_envelope_midpoint_witness :
    build_ogr_geometry (some "esriGeometryPolygon") degFeature.geometry =
      .ok (OgrGeom.polygon [[(0, 0), (4, 0), (0, 4)]]) ∧
    centroid (OgrGeom.polygon [[(0, 0), (4, 0), (0, 4)]]) =
      .error (invalidRingKey ++ " 3 - must be 0 or >= 4") ∧
    strContainsB (invalidRingKey ++ " 3 - must be 0 or >= 4") invalidRingKey = true ∧
    processFeatures (some "esriGeometryPolygon") [degFeature] [] =
      .ok ([Row.mk 7 (pyRound7 (0 / 2 + 4 / 2)) (pyRound7 (0 / 2 + 4 / 2))], [7]) := by
  refine ⟨by decide, by decide, by decide, ?_⟩
  exact C8_degenerate_ring_falls_back_to_envelope_midpoint
    (some "esriGeometryPolygon") degFeature [] [] 7
    (OgrGeom.polygon [[(0, 0), (4, 0), (0, 4)]])
    (invalidRingKey ++ " 3 - must be 0 or >= 4") [] [7] 0 4 0 4
    rfl (by decide) (by decide) (by decide) (by decide) (by decide) rfl

/-! # C6 -/

/-- C6 counterexample: the claim says a feature whose geometry type is
outside the supported set only has its own row skipped and is never fatal
to the acquisition.  On a concrete full acquisition whose layer declares
geometry type esriGeometryEnvelope, the very first feature makes
build_ogr_geometry raise KeyError inside the recursive fetch (line 472),
where NO handler exists - the `except TypeError` of line 546 never sees it -
so the whole acquisition aborts with an error that is not a DownloadError
and no CSV rows are produced. -/
theorem C6_counterexample_unsupported_type_aborts_acquisition :
    esriDownloadOne idTransform 200 c6Meta c6Server 1 =
      .error (.keyError "Don't know how to convert esri geometry type") ∧
    (PyErr.keyError "Don't know how to convert esri geometry type").isDownloadError = false := by
  exact ⟨by decide, rfl⟩

/-- C6 as amended: an unsupported geometry type raises an uncaught KeyError
during the recursive fetch, aborting the whole acquisition (first
conjunct); rows are skipped non-fatally only in the CSV emit phase, whose
handler catches only the TypeError that build_ogr_geometry raises there -
and since every fetched row is an attributes dictionary without a geometry
member, that emit loop skips each row and completes without error (second
conjunct). -/
theorem C6_unsupported_geometry_type_is_fatal_only_typeerror_is_skipped
    (S : EsriServer) (m fuel : ℕ) (ids : List ℤ) (bbox : BBox)
    (j : QueryJson) (gt : String) (f : Feature) (rest : List Feature)
    (oid : ℤ) (gd : GeomData)
    (hq : S.resp bbox 0 = HttpResponse.mk 200 (Body.json j))
    (herr : j.error = none)
    (hgt : j.geometryType = some gt)
    (hunsup : gt ∉ (["esriGeometryPoint", "esriGeometryMultipoint",
                     "esriGeometryPolygon", "esriGeometryPolyline"] : List String))
    (hfeat : j.features = some (f :: rest))
    (hattr : f.attributes = some (Attrs.mk (some oid)))
    (hfresh : oid ∉ ids)
    (hgeom : f.geometry = some gd) :
    get_bbox S m (fuel + 1) ids bbox =
      .error (.keyError "Don't know how to convert esri geometry type") ∧
    ∀ (gt2 : String) (rows : List Row),
      emitLoop gt2 rows = .ok (rows.map (fun _ => EmitStep.skipped)) := by
  have hr : retryLoop (S.resp bbox) = RetryExit.broke 1 (S.resp bbox 0) := by
    apply retryLoop_first_success
    rw [hq]
    simp [attemptFailure, herr]
  simp only [List.mem_cons, List.not_mem_nil, or_false, not_or] at hunsup
  obtain ⟨h1, h2, h3, h4⟩ := hunsup
  have hbuild : build_ogr_geometry (some gt) (some gd) =
      .error (.keyError "Don't know how to convert esri geometry type") := by
    simp only [build_ogr_geometry, Option.some.injEq]
    rw [if_neg h1, if_neg h2, if_neg h3, if_neg h4]
  have hxy : featureXY (some gt) f =
      .error (.keyError "Don't know how to convert esri geometry type") := by
    simp only [featureXY, hgeom, hbuild]
  have hpf : processFeatures (some gt) (f :: rest) ids =
      .error (.keyError "Don't know how to convert esri geometry type") := by
    simp only [processFeatures, hattr, Option.getD_some, if_neg hfresh, hxy]
  constructor
  · simp only [get_bbox, hr, responseAfterLoop, hq, jsonOf, hfeat, hgt, hpf]
  · intro gt2 rows
    induction rows with
    | nil => rfl
    | cons r rest2 ih =>
      simp only [emitLoop, build_ogr_geometry, ih, List.map_cons]

/-- Witness for C6 (amended): the unsupported-type server aborts the fetch
with the uncaught KeyError, and the emit loop skips a concrete row list
without error. -/
theorem C6_unsupported_geometry_type_witness :
    get_bbox c6Server 500 1 [] scB0 =
      .error (.keyError "Don't know how to convert esri geometry type") ∧
    emitLoop "esriGeometryEnvelope" [Row.mk 1 1 1] =
      .ok ([Row.mk 1 1 1].map (fun _ => EmitStep.skipped)) := by
  have h := C6_unsupported_geometry_type_is_fatal_only_typeerror_is_skipped
    c6Server 500 0 [] scB0
    (QueryJson.mk none (some "esriGeometryEnvelope")
      (some [Feature.mk (some (Attrs.mk (some 1))) (some GeomData.empty)]))
    "esriGeometryEnvelope"
    (Feature.mk (some (Attrs.mk (some 1))) (some GeomData.empty)) [] 1 GeomData.empty
    rfl rfl rfl (by decide) rfl rfl (by decide) rfl
  exact ⟨h.1, h.2 "esriGeometryEnvelope" [Row.mk 1 1 1]⟩

/-! # C7 -/

/-- C7 counterexample: the claim says the metadata phase fails with a
DownloadError when the extent is missing.  On metadata that passes every
other check but carries no extent, the phase reads `extent` with .get() and
immediately subscripts it (lines 375-379) with no check at all, so it
aborts with a plain TypeError, not a DownloadError. -/
theorem C7_counterexample_missing_extent_is_typeerror :
    processMetadata idTransform 200 c7Meta =
      .error (.typeError "NoneType object is not subscriptable") ∧
    (PyErr.typeError "NoneType object is not subscriptable").isDownloadError = false := by
  exact ⟨by decide, rfl⟩

/-- C7 as amended: the metadata phase fails with a DownloadError when the
response is non-200, when the payload carries an error member, when the
fields list is absent or empty, when no field has the object-id type, or
when geometryType is missing or empty (first conjunct); but when everything
else is in order and the EXTENT is the missing piece, the failure is an
uncaught TypeError from subscripting None, not a DownloadError (second
conjunct). -/
theorem C7_metadata_failures_only_extent_is_typeerror
    (transform : ℤ → ℚ × ℚ → ℚ × ℚ) (status : ℕ) (mj : MetaJson) (fOid : FieldJson) :
    ((status ≠ 200 ∨ mj.error ≠ none ∨ mj.fields.getD [] = [] ∨
      (mj.fields.getD []).find? (fun f => f.type = "esriFieldTypeOID") = none ∨
      mj.geometryType.getD "" = "") →
      ∃ msg, processMetadata transform status mj = .error (.downloadError msg)) ∧
    (status = 200 → mj.error = none → mj.fields.getD [] ≠ [] →
      (mj.fields.getD []).find? (fun f => f.type = "esriFieldTypeOID") = some fOid →
      fOid.name ≠ "" → mj.geometryType.getD "" ≠ "" → mj.extent = none →
      processMetadata transform status mj =
        .error (.typeError "NoneType object is not subscriptable")) := by
  constructor
  · intro hdisj
    by_cases hst : status = 200
    · subst hst
      cases herr : mj.error with
      | some msg =>
        exact ⟨"Problem querying ESRI field names: " ++ msg, by simp [processMetadata, herr]⟩
      | none =>
        cases hfl : mj.fields with
        | none =>
          exact ⟨"No fields available in the source", by simp [processMetadata, herr, hfl]⟩
        | some fields =>
          by_cases hfe : fields = []
          · exact ⟨"No fields available in the source",
              by simp [processMetadata, herr, hfl, hfe]⟩
          · cases hfind : fields.find? (fun f => f.type = "esriFieldTypeOID") with
            | none =>
              exact ⟨"Could not find objectid field name",
                by simp [processMetadata, herr, hfl, if_neg hfe, hfind]⟩
            | some f0 =>
              by_cases hname : f0.name = ""
              · exact ⟨"Could not find objectid field name",
                  by simp [processMetadata, herr, hfl, if_neg hfe, hfind, hname]⟩
              · cases hgt : mj.geometryType with
                | none =>
                  exact ⟨"Could not determine geometry type",
                    by simp [processMetadata, herr, hfl, if_neg hfe, hfind,
                      if_neg hname, hgt]⟩
                | some gt =>
                  by_cases hge : gt = ""
                  · exact ⟨"Could not determine geometry type",
                      by simp [processMetadata, herr, hfl, if_neg hfe, hfind,
                        if_neg hname, hgt, hge]⟩
                  · exfalso
                    rcases hdisj with h | h | h | h | h
                    · exact h rfl
                    · rw [herr] at h; exact h rfl
                    · rw [hfl] at h; exact hfe (by simpa using h)
                    · rw [hfl] at h; simp only [Option.getD_some] at h
                      rw [hfind] at h; cases h
                    · rw [hgt] at h; simp only [Option.getD_some] at h
                      exact hge h
    · exact ⟨"Could not retrieve field names from ESRI source",
        by simp [processMetadata, hst]⟩
  · intro hst herr hfne hfind hname hgt hext
    subst hst
    cases hfl : mj.fields with
    | none => rw [hfl] at hfne; simp at hfne
    | some fields =>
      rw [hfl] at hfne hfind
      simp only [Option.getD_some] at hfne hfind
      cases hgtv : mj.geometryType with
      | none => rw [hgtv] at hgt; simp at hgt
      | some gt =>
        rw [hgtv] at hgt
        simp only [Option.getD_some] at hgt
        simp [processMetadata, herr, hfl, if_neg hfne, hfind, if_neg hname, hgtv,
          if_neg hgt, hext]

/-- Witness for C7 (amended): applied once to a non-200 metadata response
(DownloadError) and once to metadata that is complete except for its
missing extent (TypeError). -/
theorem C7_metadata_failures_witness :
    (∃ msg, processMetadata idTransform 404 c7Meta = .error (.downloadError msg)) ∧
    processMetadata idTransform 200 c7Meta =
      .error (.typeError "NoneType object is not subscriptable") := by
  constructor
  · exact (C7_metadata_failures_only_extent_is_typeerror idTransform 404 c7Meta
      (FieldJson.mk "OBJECTID" "esriFieldTypeOID")).1 (Or.inl (by decide))
  · exact (C7_metadata_failures_only_extent_is_typeerror idTransform 200 c7Meta
      (FieldJson.mk "OBJECTID" "esriFieldTypeOID")).2 rfl rfl (by decide) (by decide)
      (by decide) (by decide) rfl

/-! # C5 -/

/-- C5 counterexample: the claim says any 4xx (and per the taxonomy any
non-2xx) response raises a DownloadError and no error response body is ever
written to the destination file.  The code tests `status_code in
range(400, 499)` (line 252), which EXCLUDES 499: a 499 response - a 4xx
status - is not raised and its body is streamed into the destination file
as if it were data. -/
theorem C5_counterexample_499_body_written_as_data :
    (400 ≤ 499 ∧ 499 ≤ 499) ∧
    urlFetchStep (.ok (FlatResponse.mk 499 ["oops"])) "http://host/x" "/work/http/x"
        (FS.mk [] []) =
      .ok (FS.mk [("/work/http/x", "oops")] []) := by
  exact ⟨by decide, by decide⟩

/-- C5 as amended: a connection-level failure raises
DownloadError("Could not connect to URL") wrapping the cause; a response
with status in range(400, 499) - that is 400 to 498 inclusive - raises a
DownloadError carrying the status and URL; and ANY other response,
including 499 and every non-2xx status outside 400-498, has its body
written to the destination file (cache.py lines 247-259). -/
theorem C5_status_range_400_498_raises_others_written
    (net : NetResult) (u f : String) (fs : FS) :
    (∀ c, net = .error c →
      urlFetchStep net u f fs = .error (.downloadError "Could not connect to URL")) ∧
    (∀ resp, net = .ok resp → 400 ≤ resp.status → resp.status < 499 →
      urlFetchStep net u f fs =
        .error (.downloadError (toString resp.status ++ " response from " ++ u))) ∧
    (∀ resp, net = .ok resp → ¬ (400 ≤ resp.status ∧ resp.status < 499) →
      urlFetchStep net u f fs = .ok (fs.write f (String.join resp.chunks))) := by
  refine ⟨?_, ?_, ?_⟩
  · intro c hc
    rw [hc]
    rfl
  · intro resp hresp hlo hhi
    rw [hresp]
    simp only [urlFetchStep, if_pos (And.intro hlo hhi)]
  · intro resp hresp hout
    rw [hresp]
    simp only [urlFetchStep, if_neg hout]

/-- Witness for C5 (amended), applied at three concrete inputs: a raised
connection error, a 404 response, and a 500 response whose body lands in
the destination file. -/
theorem C5_status_range_400_498_raises_others_written_witness :
    urlFetchStep (.error "refused") "u" "f" (FS.mk [] []) =
      .error (.downloadError "Could not connect to URL") ∧
    urlFetchStep (.ok (FlatResponse.mk 404 ["x"])) "u" "f" (FS.mk [] []) =
      .error (.downloadError (toString (404 : ℕ) ++ " response from " ++ "u")) ∧
    urlFetchStep (.ok (FlatResponse.mk 500 ["x"])) "u" "f" (FS.mk [] []) =
      .ok ((FS.mk [] []).write "f" (String.join ["x"])) := by
  refine ⟨?_, ?_, ?_⟩
  · exact (C5_status_range_400_498_raises_others_written (.error "refused") "u" "f"
      (FS.mk [] [])).1 "refused" rfl
  · exact (C5_status_range_400_498_raises_others_written (.ok (FlatResponse.mk 404 ["x"]))
      "u" "f" (FS.mk [] [])).2.1 (FlatResponse.mk 404 ["x"]) rfl (by decide) (by decide)
  · exact (C5_status_range_400_498_raises_others_written (.ok (FlatResponse.mk 500 ["x"]))
      "u" "f" (FS.mk [] [])).2.2 (FlatResponse.mk 500 ["x"]) rfl (by decide)

/-! # C9 -/

/-- C9 counterexample: the claim says every URL with an unsupported scheme
makes the resolver fail.  But branch one (lines 128-133) trusts a
meaningful path extension on a query-less URL before ever looking at the
scheme: an ftp URL ending in .zip resolves to .zip with no error and no
network access. -/
theorem C9_counterexample_ftp_zip_resolves :
    ftpUrl.scheme ∉ (["http", "https", "file", ""] : List String) ∧
    guess_url_file_extension trivialWorld ftpUrl = .ok (some ".zip") := by
  exact ⟨by decide, by decide⟩

/-- C9 as amended: the unsupported-scheme ValueError is raised only when
the resolver must fetch content - that is, when the URL has a query string
or its path extension is in the meaningless set; a query-less URL with a
meaningful path extension returns that extension verbatim with no scheme
inspection at all (cache.py lines 119-149). -/
theorem C9_unsupported_scheme_fails_only_when_fetching
    (W : UrlWorld) (url : Url) :
    (url.query = "" ∧ splitextExt url.path ∉ bad_extensions →
      guess_url_file_extension W url = .ok (some (splitextExt url.path))) ∧
    (¬ (url.query = "" ∧ splitextExt url.path ∉ bad_extensions) →
      url.scheme ≠ "http" → url.scheme ≠ "https" → url.scheme ≠ "file" → url.scheme ≠ "" →
      guess_url_file_extension W url =
        .error (.valueError ("Unknown scheme " ++ url.scheme))) := by
  constructor
  · intro h
    simp only [guess_url_file_extension, if_pos h]
  · intro h h1 h2 h3 h4
    simp only [guess_url_file_extension, if_neg h]
    rw [if_neg (by tauto), if_neg (by tauto)]

/-- Witness for C9 (amended), applied at two concrete inputs: branch one on
an http URL ending in .csv, and the ValueError branch on an ftp URL whose
query string forces a fetch. -/
theorem C9_unsupported_scheme_fails_only_when_fetching_witness :
    guess_url_file_extension trivialWorld (Url.mk "http" "h" "/a.csv" "" "" "") =
      .ok (some (splitextExt "/a.csv")) ∧
    guess_url_file_extension trivialWorld (Url.mk "ftp" "h" "/a.csv" "" "q=1" "") =
      .error (.valueError ("Unknown scheme " ++ "ftp")) := by
  constructor
  · exact (C9_unsupported_scheme_fails_only_when_fetching trivialWorld
      (Url.mk "http" "h" "/a.csv" "" "" "")).1 ⟨rfl, by decide⟩
  · exact (C9_unsupported_scheme_fails_only_when_fetching trivialWorld
      (Url.mk "ftp" "h" "/a.csv" "" "q=1" "")).2 (by decide) (by decide) (by decide)
      (by decide) (by decide)

/-! # C4 -/

/-- A freshly written file reads back its content. -/
theorem FS.readFile_write_self (fs : FS) (p c : String) :
    (fs.write p c).readFile p = some c := by
  simp [FS.readFile, FS.write]

/-- A path that exists as a file satisfies the os.path.exists check. -/
theorem FS.existsPath_of_readFile {fs : FS} {p c : String}
    (h : fs.readFile p = some c) : fs.existsPath p = true := by
  unfold FS.readFile at h
  unfold FS.existsPath
  cases hf : fs.files.find? (fun kv => kv.1 = p) with
  | none => rw [hf] at h; cases h
  | some kv =>
    have hp := List.find?_some hf
    have hm := List.mem_of_find?_eq_some hf
    simp only [Bool.or_eq_true, List.any_eq_true]
    exact Or.inl ⟨kv, hm, hp⟩

/-- Creating a directory does not change file contents. -/
theorem FS.readFile_mkdirFs (fs : FS) (d p : String) :
    (fs.mkdirFs d).readFile p = fs.readFile p := rfl

/-- After a move the destination holds the source's content. -/
theorem FS.readFile_move_dst (fs : FS) (src dst c : String)
    (hc : fs.readFile src = some c) :
    (fs.moveFile src dst).readFile dst = some c := by
  unfold FS.moveFile
  rw [hc]
  exact FS.readFile_write_self _ dst c

/-- After a move to a different path the source file is gone: the move is a
move, not a copy. -/
theorem FS.readFile_move_src (fs : FS) (src dst : String) (hne : dst ≠ src) :
    (fs.moveFile src dst).readFile src = none := by
  unfold FS.moveFile FS.write FS.removeFile FS.readFile
  rw [Option.map_eq_none', List.find?_eq_none]
  intro kv hkv
  rcases List.mem_cons.mp hkv with h | h
  · rw [h]
    simpa using hne
  · have := (List.mem_filter.mp (List.mem_filter.mp h).1).2
    simpa using this

/-- C4: on an existing artifact, the reconcile operation (cache.py lines
67-94) computes the content fingerprint and: when the declared prior data
carries an http-scheme cache URL together with a fingerprint equal to the
fresh one, it returns the declared pair with the filesystem untouched;
otherwise it returns a file:// reference into the store under the
artifact's own basename together with the fresh fingerprint, having created
the store directory when absent and MOVED (not copied) the artifact into
the store. -/
theorem C4_cache_reconcile
    (md5hex abspath : String → String) (filepath resultdir : String)
    (data : DeclaredData) (fs : FS) (content : String)
    (hfile : fs.readFile filepath = some content)
    (hdstne : pathjoin resultdir (pathBasename filepath) ≠ filepath) :
    (urlscheme (data.cache.getD "") = "http" ∧ data.fingerprint = some (md5hex content) →
      compare_cache_details md5hex abspath filepath resultdir data fs =
        .ok (data.cache.getD "", md5hex content, fs)) ∧
    (¬ (urlscheme (data.cache.getD "") = "http" ∧
        data.fingerprint = some (md5hex content)) →
      ∃ fs2 : FS,
        compare_cache_details md5hex abspath filepath resultdir data fs =
          .ok ("file://" ++ pathjoin (abspath resultdir) (pathBasename filepath),
               md5hex content, fs2) ∧
        fs2.readFile (pathjoin resultdir (pathBasename filepath)) = some content ∧
        fs2.readFile filepath = none ∧
        fs2.dirs = (if fs.existsPath resultdir then fs.dirs else resultdir :: fs.dirs)) := by
  have hex : fs.existsPath filepath = true := FS.existsPath_of_readFile hfile
  constructor
  · intro hsc
    unfold compare_cache_details
    rw [if_neg (by simp [hex]), hfile]
    simp only [Option.getD_some]
    rw [if_pos ⟨hsc.1, by rw [hsc.2]; rfl, hsc.2⟩]
  · intro hneg
    refine ⟨(if fs.existsPath resultdir then fs else fs.mkdirFs resultdir).moveFile
      filepath (pathjoin resultdir (pathBasename filepath)), ?_, ?_, ?_, ?_⟩
    · unfold compare_cache_details
      rw [if_neg (by simp [hex]), hfile]
      simp only [Option.getD_some]
      rw [if_neg (fun hc => hneg ⟨hc.1, hc.2.2⟩)]
    · apply FS.readFile_move_dst
      cases hres : fs.existsPath resultdir <;> simpa [FS.readFile_mkdirFs, hres] using hfile
    · exact FS.readFile_move_src _ filepath _ hdstne
    · cases hres : fs.existsPath resultdir <;>
        simp [hres, FS.moveFile, FS.write, FS.removeFile, FS.mkdirFs]

/-- Witness for C4, applied at two concrete inputs over the same one-file
filesystem: a declared http cache record whose fingerprint matches (the
declared pair comes back and the filesystem is untouched), and an empty
declared record (the artifact is moved into the freshly created store and a
file:// reference is returned). -/
theorem C4_cache_reconcile_witness :
    c4Fs.readFile "/tmp/work/data.zip" = some "BYTES" ∧
    compare_cache_details c4md5 c4abs "/tmp/work/data.zip" "store"
        (DeclaredData.mk (some "http://cache.example/data.zip") (some "md5-BYTES")) c4Fs =
      .ok ((some "http://cache.example/data.zip").getD "", c4md5 "BYTES", c4Fs) ∧
    (∃ fs2 : FS,
      compare_cache_details c4md5 c4abs "/tmp/work/data.zip" "store"
          (DeclaredData.mk none none) c4Fs =
        .ok ("file://" ++ pathjoin (c4abs "store") (pathBasename "/tmp/work/data.zip"),
             c4md5 "BYTES", fs2) ∧
      fs2.readFile (pathjoin "store" (pathBasename "/tmp/work/data.zip")) = some "BYTES" ∧
      fs2.readFile "/tmp/work/data.zip" = none ∧
      fs2.dirs = (if c4Fs.existsPath "store" then c4Fs.dirs else "store" :: c4Fs.dirs)) := by
  refine ⟨rfl, ?_, ?_⟩
  · exact (C4_cache_reconcile c4md5 c4abs "/tmp/work/data.zip" "store"
      (DeclaredData.mk (some "http://cache.example/data.zip") (some "md5-BYTES")) c4Fs
      "BYTES" rfl (by decide)).1 ⟨by decide, by decide⟩
  · exact (C4_cache_reconcile c4md5 c4abs "/tmp/work/data.zip" "store"
      (DeclaredData.mk none none) c4Fs "BYTES" rfl (by decide)).2 (by decide)

end OpenAddr
